import Mathlib

/-!
Shallow embedding of the Financial-ChatBot Python backend services
(`app/services/vector_store.py`, `app/services/rag_service.py`,
`app/services/document_processor.py`) together with proofs of the
specification's claims about them.

Modelling conventions:
* Python exceptions are `Except PyErr`; a `try/except` block becomes a
  `match` on the `Except` value of the guarded code.
* The file system is a map from path strings to nodes.  `os.path.join`
  is modelled as separator concatenation (paths are treated as opaque
  strings, no resolution).  `langchain`'s `FAISS.save_local(path)`
  creates a *directory* at `path` holding `index.faiss`/`index.pkl`;
  we model that artifact as a single directory node carrying the
  docstore.  `os.remove` deletes a regular file and raises
  `IsADirectoryError` on a directory, exactly as on POSIX.
* External model calls (embedding similarity ranking, the vision model,
  the chat model) are oracle parameters returning `Except PyErr`.
* `print` logging is ignored.
-/

namespace FinChat

/-- Metadata attached to every chunk by the document processor
(`document_processor.py`, `create_documents` metadata dicts). -/
structure ChunkMeta where
  page : Nat
  type : String
  source : String
  image_index : Option Nat
deriving DecidableEq, Repr

/-- A LangChain `Document`: page content plus metadata. -/
structure Document where
  page_content : String
  metadata : ChunkMeta
deriving DecidableEq, Repr

/-- Python exception classes relevant to the services. -/
inductive PyErr
  | fileNotFound (msg : String)
  | valueError (msg : String)
  | exn (msg : String)
deriving DecidableEq, Repr

/-- An embedded image inside a PDF page: whether `doc.extract_image`
succeeds on it, and the raw bytes (abstracted as a string). -/
structure PDFImage where
  extractOk : Bool
  data : String
deriving DecidableEq, Repr

/-- A PDF page: its raw text and its embedded images. -/
structure PDFPage where
  text : String
  images : List PDFImage
deriving DecidableEq, Repr

/-- A node in the modelled file system: a regular file with opaque
contents, a parseable PDF file, or a FAISS index directory (as written
by `FAISS.save_local`), possibly corrupted. -/
inductive FSNode
  | file (data : String)
  | pdf (pages : List PDFPage)
  | faissDir (docs : List Document) (corrupt : Bool)
deriving DecidableEq, Repr

/-- The file system: partial map from path strings to nodes. -/
abbrev FS := String → Option FSNode

/-- Point update of the file system. -/
def FS.update (fs : FS) (p : String) (v : Option FSNode) : FS :=
  fun q => if q = p then v else fs q

/-- `os.path.exists`. -/
def os_path_exists (fs : FS) (p : String) : Bool :=
  (fs p).isSome

/-- `os.remove`: removes a regular file; raises `FileNotFoundError` on a
missing path and `IsADirectoryError` on a directory. -/
def os_remove (fs : FS) (p : String) : Except PyErr FS :=
  match fs p with
  | none => .error (.fileNotFound ("No such file: " ++ p))
  | some (.faissDir _ _) => .error (.exn ("IsADirectoryError: " ++ p))
  | some (.file _) => .ok (fs.update p none)
  | some (.pdf _) => .ok (fs.update p none)

/-! ## Vector store (`app/services/vector_store.py`) -/

/-- `settings.VECTOR_STORE_PATH` (`app/config/settings.py`). -/
def VECTOR_STORE_PATH : String := "./vector_store"

/-- `settings.TOP_K_RESULTS` (`app/config/settings.py`). -/
def TOP_K_RESULTS : Nat := 5

/-- `LocalVectorStore._get_namespace_path`:
`os.path.join(self.vector_store_path, f"{namespace}.faiss")`. -/
def get_namespace_path (ns : String) : String :=
  VECTOR_STORE_PATH ++ "/" ++ ns ++ ".faiss"

/-- `LocalVectorStore.create_vector_store`: builds a FAISS index from
the documents (`FAISS.from_documents` raises `IndexError` on an empty
list) and persists it with `save_local`, which creates a directory at
the namespace path, overwriting any previous artifact. -/
def create_vector_store (fs : FS) (documents : List Document) (ns : String) :
    Except PyErr FS :=
  if documents.isEmpty then
    .error (.exn "IndexError: list index out of range")
  else
    .ok (fs.update (get_namespace_path ns) (some (.faissDir documents false)))

/-- `LocalVectorStore.load_vector_store`: raises `FileNotFoundError`
when the artifact is absent, re-raises deserialization failures. -/
def load_vector_store (fs : FS) (ns : String) : Except PyErr (List Document) :=
  match fs (get_namespace_path ns) with
  | none => .error (.fileNotFound ("Vector store not found: " ++ ns))
  | some (.faissDir docs false) => .ok docs
  | some (.faissDir _ true) => .error (.exn ("Could not load vector store: " ++ ns))
  | some (.file _) => .error (.exn ("Could not load vector store: " ++ ns))
  | some (.pdf _) => .error (.exn ("Could not load vector store: " ++ ns))

/-- An abstract similarity-ranking oracle: orders a docstore by
relevance to a query; may fail (the query embedding is a model call). -/
abbrev RankFn := String → List Document → Except PyErr (List Document)

/-- `FAISS.similarity_search(query, k)`: the `k` most relevant stored
documents according to the ranking oracle. -/
def similarity_search (rank : RankFn) (query : String) (docs : List Document)
    (k : Nat) : Except PyErr (List Document) :=
  (rank query docs).map (List.take k)

/-- Body of one iteration of the namespace loop in
`LocalVectorStore.search`: load the store, then search it. -/
def searchNamespaceStep (rank : RankFn) (fs : FS) (query : String) (k : Nat)
    (ns : String) : Except PyErr (List Document) := do
  let docs ← load_vector_store fs ns
  similarity_search rank query docs k

/-- The namespace loop of `LocalVectorStore.search`, instrumented with
the list of namespaces for which an index load was attempted.  Both
`except FileNotFoundError` and `except Exception` branches `continue`. -/
def searchLoop (rank : RankFn) (fs : FS) (query : String) (k : Nat) :
    List String → List Document → List String → List Document × List String
  | [], all_results, loads => (all_results, loads)
  | ns :: rest, all_results, loads =>
    match searchNamespaceStep rank fs query k ns with
    | .ok results => searchLoop rank fs query k rest (all_results ++ results) (loads ++ [ns])
    | .error _ => searchLoop rank fs query k rest all_results (loads ++ [ns])

/-- `LocalVectorStore.search`: fan-out over the requested namespaces.
The outer `try` is unreachable (the loop body absorbs every error), so
the function returns the accumulated results. -/
def search (rank : RankFn) (fs : FS) (query : String) (namespaces : List String)
    (k : Nat) : List Document :=
  (searchLoop rank fs query k namespaces [] []).1

/-- `LocalVectorStore.delete_vector_store`: checks existence, removes
the artifact and the optional `.pkl` sibling; any exception is caught
and turns the result into `False`. -/
def delete_vector_store (fs : FS) (ns : String) : Bool × FS :=
  let namespace_path := get_namespace_path ns
  if os_path_exists fs namespace_path then
    match os_remove fs namespace_path with
    | .error _ => (false, fs)
    | .ok fs1 =>
      let pkl_path := namespace_path ++ ".pkl"
      if os_path_exists fs1 pkl_path then
        match os_remove fs1 pkl_path with
        | .error _ => (false, fs1)
        | .ok fs2 => (true, fs2)
      else (true, fs1)
  else (false, fs)

/-- `LocalVectorStore.namespace_exists`. -/
def namespace_exists (fs : FS) (ns : String) : Bool :=
  os_path_exists fs (get_namespace_path ns)

/-! ## Prompt templates (`app/config/prompts.py`) -/

/-- `SMART_CHAT_PROMPT`. -/
def SMART_CHAT_PROMPT : String :=
  "### ROLE ###\nYou are FinChatBot, an advanced financial AI assistant with document analysis capabilities.\n\n### INSTRUCTIONS ###\n1. Provide comprehensive answers based on the user's question using the provided context.\n2. The context contains text excerpts and descriptions of images (charts, tables) from documents.\n3. Synthesize information from all context pieces to form a complete answer.\n4. If financial data is available, cite it directly with specific numbers.\n5. If the context doesn't contain the answer, clearly state that the information is not available in the uploaded documents.\n6. If the user asks about a specific company but the document is about a different company, clearly identify which company the document is about and politely inform the user.\n7. DO NOT use external knowledge - only use the provided context.\n8. Be concise but thorough in your explanations.\n\n### CONTEXT ###\n{context}\n\n### CHAT HISTORY ###\n{chat_history}\n\n### QUESTION ###\n{question}\n\n### ANSWER ###\n"

/-- `DOCUMENT_ANALYSIS_PROMPT`. -/
def DOCUMENT_ANALYSIS_PROMPT : String :=
  "### ROLE ###\nYou are FinChatBot, acting as a document analyst focused on extracting specific information.\n\n### INSTRUCTIONS ###\n1. Extract and summarize specific information from the document.\n2. Focus on accuracy and detail.\n3. Cite page numbers when available.\n4. If information is not in the document, state that clearly and mention what company/topic the document is actually about.\n5. If the user asks about a specific company but the document is about a different company, clearly identify which company the document covers.\n\n### CONTEXT ###\n{context}\n\n### QUESTION ###\n{question}\n\n### ANSWER ###\n"

/-- `ANALYTICAL_INSIGHTS_PROMPT`. -/
def ANALYTICAL_INSIGHTS_PROMPT : String :=
  "### ROLE ###\nYou are FinChatBot, acting as a financial analyst performing calculations and identifying trends.\n\n### INSTRUCTIONS ###\n1. Perform calculations based on the data in the context.\n2. Identify trends, patterns, and anomalies.\n3. Provide numerical analysis with specific figures.\n4. Explain your reasoning clearly.\n5. If the user asks about a specific company but the document is about a different company, clearly identify which company the document covers and inform the user.\n\n### CONTEXT ###\n{context}\n\n### QUESTION ###\n{question}\n\n### ANSWER ###\n"

/-- `GENERAL_CONVERSATION_PROMPT`. -/
def GENERAL_CONVERSATION_PROMPT : String :=
  "### ROLE ###\nYou are FinChatBot, a helpful and knowledgeable financial AI assistant.\n\n### INSTRUCTIONS ###\n1. Provide helpful, accurate information about finance topics.\n2. Be conversational and friendly.\n3. If you don't know something, admit it honestly.\n4. Keep responses concise and easy to understand.\n\n### CHAT HISTORY ###\n{chat_history}\n\n### QUESTION ###\n{question}\n\n### ANSWER ###\n"

/-! ## RAG service (`app/services/rag_service.py`) -/

/-- One entry of the `chat_history` list (`{role, content}`). -/
structure ChatMessage where
  role : String
  content : String
deriving DecidableEq, Repr

/-- Python `str.strip()`: leading and trailing whitespace removed. -/
def pyStrip (s : String) : String :=
  String.mk (((s.data.dropWhile Char.isWhitespace).reverse.dropWhile
    Char.isWhitespace).reverse)

/-- Python `str.capitalize()`: first character upper-cased, the rest
lower-cased. -/
def pyCapitalize (s : String) : String :=
  match s.data with
  | [] => ""
  | c :: rest => String.mk (c.toUpper :: rest.map Char.toLower)

/-- `RAGService._format_documents`. -/
def format_documents (docs : List Document) : String :=
  if docs.isEmpty then "No relevant context found."
  else
    String.intercalate "\n\n---\n\n"
      (docs.map (fun doc => "[Page " ++ toString doc.metadata.page ++ "] " ++ doc.page_content))

/-- `RAGService._format_chat_history`. -/
def format_chat_history (chat_history : List ChatMessage) : String :=
  if chat_history.isEmpty then "No previous conversation."
  else
    String.intercalate "\n"
      (chat_history.map (fun msg => pyCapitalize msg.role ++ ": " ++ msg.content))

/-- One invocation of the `prompt | llm | StrOutputParser` chain: the
template and the variable dict passed to `chain.invoke`. -/
structure LLMCall where
  template : String
  vars : List (String × String)
deriving DecidableEq, Repr

/-- The external collaborators of `RAGService`: the vector store's
file-system state, the similarity-ranking oracle, and the chat model. -/
structure RAGEnv where
  fs : FS
  rank : RankFn
  llm : LLMCall → Except PyErr String

/-- Instrumentation record: which namespace lists were passed to
`vector_store.search` and which chain invocations reached the language
model. -/
structure Trace where
  searches : List (List String)
  llmCalls : List LLMCall
deriving DecidableEq, Repr

/-- `RAGService._retrieve_context`: empty namespace list short-circuits
to `[]` without calling `vector_store.search`; otherwise one search
with `k = settings.TOP_K_RESULTS`.  The second component records the
search invocations performed. -/
def retrieve_context (env : RAGEnv) (question : String) (namespaces : List String) :
    List Document × List (List String) :=
  if namespaces.isEmpty then ([], [])
  else (search env.rank env.fs question namespaces TOP_K_RESULTS, [namespaces])

/-- `RAGService.smart_chat`. -/
def smart_chat (env : RAGEnv) (question : String) (chat_history : List ChatMessage)
    (namespaces : List String) : Except PyErr String × Trace :=
  if namespaces.isEmpty then
    (.ok "I need documents to answer your question. Please upload a document first.",
     ⟨[], []⟩)
  else
    let retr := retrieve_context env question namespaces
    let relevant_docs := retr.1
    if relevant_docs.isEmpty then
      (.ok "I couldn't find relevant information in the uploaded documents to answer your question.",
       ⟨retr.2, []⟩)
    else
      let context := format_documents relevant_docs
      let history := format_chat_history chat_history
      let call : LLMCall :=
        ⟨SMART_CHAT_PROMPT,
         [("context", context), ("chat_history", history), ("question", question)]⟩
      (env.llm call, ⟨retr.2, [call]⟩)

/-- `RAGService.document_analysis` (the `chat_history` parameter is
accepted but unused, as in the source). -/
def document_analysis (env : RAGEnv) (question : String)
    (chat_history : List ChatMessage) (namespaces : List String) :
    Except PyErr String × Trace :=
  if namespaces.isEmpty then
    (.ok "Please upload a document to analyze.", ⟨[], []⟩)
  else
    let retr := retrieve_context env question namespaces
    let relevant_docs := retr.1
    if relevant_docs.isEmpty then
      (.ok "No relevant information found in the document.", ⟨retr.2, []⟩)
    else
      let context := format_documents relevant_docs
      let call : LLMCall :=
        ⟨DOCUMENT_ANALYSIS_PROMPT, [("context", context), ("question", question)]⟩
      (env.llm call, ⟨retr.2, [call]⟩)

/-- `RAGService.analytical_insights` (the `chat_history` parameter is
accepted but unused, as in the source). -/
def analytical_insights (env : RAGEnv) (question : String)
    (chat_history : List ChatMessage) (namespaces : List String) :
    Except PyErr String × Trace :=
  if namespaces.isEmpty then
    (.ok "Please upload financial documents to analyze.", ⟨[], []⟩)
  else
    let retr := retrieve_context env question namespaces
    let relevant_docs := retr.1
    if relevant_docs.isEmpty then
      (.ok "No relevant financial data found in the documents.", ⟨retr.2, []⟩)
    else
      let context := format_documents relevant_docs
      let call : LLMCall :=
        ⟨ANALYTICAL_INSIGHTS_PROMPT, [("context", context), ("question", question)]⟩
      (env.llm call, ⟨retr.2, [call]⟩)

/-- `RAGService.general_conversation`. -/
def general_conversation (env : RAGEnv) (question : String)
    (chat_history : List ChatMessage) : Except PyErr String × Trace :=
  let history := format_chat_history chat_history
  let call : LLMCall :=
    ⟨GENERAL_CONVERSATION_PROMPT, [("chat_history", history), ("question", question)]⟩
  (env.llm call, ⟨[], [call]⟩)

/-- The mode dispatch inside the `try` of `RAGService.get_answer`:
four recognized modes, everything else defaults to Smart Chat. -/
def route_mode (env : RAGEnv) (question : String) (chat_history : List ChatMessage)
    (namespaces : List String) (feature_mode : String) : Except PyErr String × Trace :=
  if feature_mode = "Smart_Chat" then
    smart_chat env question chat_history namespaces
  else if feature_mode = "Document_Analysis" then
    document_analysis env question chat_history namespaces
  else if feature_mode = "Analytical_Insights" then
    analytical_insights env question chat_history namespaces
  else if feature_mode = "General_Conversation" then
    general_conversation env question chat_history
  else
    smart_chat env question chat_history namespaces

/-- `RAGService.get_answer`: routes to the selected mode; any exception
raised during mode execution is caught and replaced by the fixed
apology string. -/
def get_answer (env : RAGEnv) (question : String) (chat_history : List ChatMessage)
    (namespaces : List String) (feature_mode : String) : String × Trace :=
  match route_mode env question chat_history namespaces feature_mode with
  | (.ok answer, tr) => (answer, tr)
  | (.error _, tr) =>
    ("I encountered an error while processing your question. Please try again or rephrase your question.",
     tr)

/-! ## Document processor (`app/services/document_processor.py`) -/

/-- Python `enumerate(xs, start)`. -/
def enumFrom (start : Nat) : List α → List (Nat × α)
  | [] => []
  | a :: rest => (start, a) :: enumFrom (start + 1) rest

/-- The vision model oracle of `DocumentProcessor`: raw image bytes to
a description, possibly failing. -/
abbrev VisionFn := String → Except PyErr String

/-- The `RecursiveCharacterTextSplitter` oracle: splits one text into
chunk contents (`create_documents` then attaches the same metadata to
every produced chunk). -/
abbrev SplitFn := String → List String

/-- `DocumentProcessor._get_image_description`: one vision-model call;
an empty response degrades to `"Could not describe image."`, and any
exception is caught and replaced by the fixed placeholder. -/
def get_image_description (vision : VisionFn) (image_bytes : String) : String :=
  match vision image_bytes with
  | .ok response_content =>
    if response_content = "" then "Could not describe image." else response_content
  | .error _ => "Image description unavailable due to processing error."

/-- `doc.extract_image(xref)`: may fail on an undecodable image. -/
def doc_extract_image (img : PDFImage) : Except PyErr String :=
  if img.extractOk then .ok img.data else .error (.exn "image could not be extracted")

/-- The chunks built for one successfully extracted image in
`_extract_images_from_page`. -/
def image_chunks_for (split : SplitFn) (vision : VisionFn) (page_num img_index : Nat)
    (image_bytes : String) : List Document :=
  let description := get_image_description vision image_bytes
  let full_description := "[Image from page " ++ toString page_num ++ "]: " ++ description
  (split full_description).map
    (fun c => ⟨c, ⟨page_num, "image", "pdf_image", some img_index⟩⟩)

/-- The `for img_index, img in enumerate(images)` loop of
`_extract_images_from_page`; a failing image is caught and skipped. -/
def extract_images_loop (split : SplitFn) (vision : VisionFn) (page_num : Nat) :
    List (Nat × PDFImage) → List Document → List Document
  | [], image_chunks => image_chunks
  | (img_index, img) :: rest, image_chunks =>
    match doc_extract_image img with
    | .ok image_bytes =>
      extract_images_loop split vision page_num rest
        (image_chunks ++ image_chunks_for split vision page_num img_index image_bytes)
    | .error _ => extract_images_loop split vision page_num rest image_chunks

/-- `DocumentProcessor._extract_images_from_page`. -/
def extract_images_from_page (split : SplitFn) (vision : VisionFn)
    (page : PDFPage) (page_num : Nat) : List Document :=
  if page.images.isEmpty then []
  else extract_images_loop split vision page_num (enumFrom 0 page.images) []

/-- `DocumentProcessor._extract_text_from_page`: empty (after `strip`)
page text yields no chunks; otherwise the splitter's chunks, each
tagged `{page, type: text, source: pdf_text}`. -/
def extract_text_from_page (split : SplitFn) (page : PDFPage) (page_num : Nat) :
    List Document :=
  if pyStrip page.text = "" then []
  else (split page.text).map (fun c => ⟨c, ⟨page_num, "text", "pdf_text", none⟩⟩)

/-- `fitz.open`: parses the file at the path; fails on anything that is
not a valid PDF document. -/
def fitz_open (fs : FS) (file_path : String) : Except PyErr (List PDFPage) :=
  match fs file_path with
  | some (.pdf pages) => .ok pages
  | some (.file _) => .error (.exn ("cannot open document: " ++ file_path))
  | some (.faissDir _ _) => .error (.exn ("cannot open document: " ++ file_path))
  | none => .error (.fileNotFound ("no such file: " ++ file_path))

/-- The `for page_num, page in enumerate(doc, start=1)` loop of
`process_pdf`, extending `all_chunks` with text chunks then image
chunks of each page. -/
def process_pages (split : SplitFn) (vision : VisionFn) :
    List (Nat × PDFPage) → List Document → List Document
  | [], all_chunks => all_chunks
  | (page_num, page) :: rest, all_chunks =>
    process_pages split vision rest
      (all_chunks ++ extract_text_from_page split page page_num
        ++ extract_images_from_page split vision page page_num)

/-- `DocumentProcessor.process_pdf`: existence check, open, per-page
extraction, empty-content check.  The returned file system is threaded
through unchanged — the function only reads. -/
def process_pdf (split : SplitFn) (vision : VisionFn) (fs : FS) (file_path : String) :
    Except PyErr (List Document) × FS :=
  if os_path_exists fs file_path then
    match fitz_open fs file_path with
    | .error e => (.error e, fs)
    | .ok pages =>
      let all_chunks := process_pages split vision (enumFrom 1 pages) []
      if all_chunks.isEmpty then
        (.error (.valueError "No content extracted from PDF"), fs)
      else
        (.ok all_chunks, fs)
  else
    (.error (.fileNotFound ("File not found: " ++ file_path)), fs)

/-! ## Derived notions used by the statements -/

/-- The contribution of one namespace to a fan-out search: the results
of its load-and-search step, or nothing when that step raised. -/
def namespace_search_result (rank : RankFn) (fs : FS) (query : String) (k : Nat)
    (ns : String) : List Document :=
  match searchNamespaceStep rank fs query k ns with
  | .ok results => results
  | .error _ => []

/-- The image index recorded in a chunk's metadata (`0` for text
chunks, which carry none). -/
def chunkImgIdx (d : Document) : Nat :=
  d.metadata.image_index.getD 0

/-- The ordering invariant between two chunks of a processed document:
earlier page first; on the same page an image chunk is never followed
by a text chunk, and image chunks carry non-decreasing image indices. -/
def chunkOrder (a b : Document) : Prop :=
  a.metadata.page < b.metadata.page
  ∨ (a.metadata.page = b.metadata.page
     ∧ (a.metadata.type = "image" →
         b.metadata.type = "image" ∧ chunkImgIdx a ≤ chunkImgIdx b))

instance (a b : Document) : Decidable (chunkOrder a b) := by
  unfold chunkOrder
  infer_instance

/-! ## Concrete fixtures used by witnesses and counterexamples -/

/-- The empty file system. -/
def fs0 : FS := fun _ => none

/-- A sample chunk. -/
def doc0 : Document := ⟨"Total revenue grew 15 percent in Q4.", ⟨1, "text", "pdf_text", none⟩⟩

/-- The file system after ingesting `doc0` under namespace `doc-1`. -/
def fs1 : FS := FS.update fs0 (get_namespace_path "doc-1") (some (.faissDir [doc0] false))

/-- A ranking oracle that keeps the docstore order. -/
def rank0 : RankFn := fun _ docs => .ok docs

/-- A benign RAG environment over the empty store. -/
def cenv0 : RAGEnv := ⟨fs0, rank0, fun call => .ok ("echo: " ++ call.template)⟩

/-- A RAG environment whose language model always fails. -/
def cenvFail : RAGEnv := ⟨fs1, rank0, fun _ => .error (.exn "model call failed")⟩

/-- A RAG environment over the one-document store. -/
def cenv1 : RAGEnv := ⟨fs1, rank0, fun call => .ok ("echo: " ++ call.template)⟩

/-- A splitter that keeps each text whole as a single chunk. -/
def split0 : SplitFn := fun s => [s]

/-- A vision oracle that describes every image successfully. -/
def vision0 : VisionFn := fun b => .ok ("Description of " ++ b)

/-- A vision oracle that always fails. -/
def visionFail : VisionFn := fun _ => .error (.exn "vision model unavailable")

/-- A vision oracle returning an empty (malformed) response. -/
def visionEmpty : VisionFn := fun _ => .ok ""

/-- A one-page PDF with text only. -/
def page1 : PDFPage := ⟨"Total revenue was 10.", []⟩

/-- A page with one good image, one undecodable image, then another
good image. -/
def pageImgs : PDFPage :=
  ⟨"Revenue summary.", [⟨true, "chart-bytes"⟩, ⟨false, "broken"⟩, ⟨true, "table-bytes"⟩]⟩

/-- A trailing text-only page. -/
def page2 : PDFPage := ⟨"Outlook improves.", []⟩

/-- A file system holding a single-page PDF at `report.pdf`. -/
def fsP : FS := FS.update fs0 "report.pdf" (some (.pdf [page1]))

/-- A file system holding a two-page PDF (with images) at `fin.pdf`. -/
def fsP2 : FS := FS.update fs0 "fin.pdf" (some (.pdf [pageImgs, page2]))

/-! ## Helper lemmas -/

/-- Closed form of the fan-out loop: accumulated results are the
concatenation of the per-namespace contributions, and a load is
attempted for exactly the requested namespaces. -/
theorem searchLoop_eq (rank : RankFn) (fs : FS) (query : String) (k : Nat) :
    ∀ (nss : List String) (acc : List Document) (loads : List String),
      searchLoop rank fs query k nss acc loads
        = (acc ++ nss.flatMap (fun ns => namespace_search_result rank fs query k ns),
           loads ++ nss) := by
  intro nss
  induction nss with
  | nil => intro acc loads; simp [searchLoop]
  | cons ns rest ih =>
    intro acc loads
    unfold searchLoop namespace_search_result
    cases h : searchNamespaceStep rank fs query k ns with
    | ok results => simp [ih, h, namespace_search_result]
    | error e => simp [ih, h, namespace_search_result]

/-- A successful per-namespace step returns at most `k` documents. -/
theorem searchNamespaceStep_length_le (rank : RankFn) (fs : FS) (query : String)
    (k : Nat) (ns : String) (results : List Document)
    (h : searchNamespaceStep rank fs query k ns = .ok results) :
    results.length ≤ k := by
  unfold searchNamespaceStep similarity_search at h
  cases hload : load_vector_store fs ns with
  | error e => rw [hload] at h; exact absurd h (by simp [Bind.bind, Except.bind])
  | ok docs =>
    rw [hload] at h
    cases hrank : rank query docs with
    | error e =>
      rw [show (do
          let docs ← Except.ok (ε := PyErr) docs
          (rank query docs).map (List.take k)) = (rank query docs).map (List.take k) from rfl,
        hrank] at h
      exact absurd h (by simp [Except.map])
    | ok l =>
      rw [show (do
          let docs ← Except.ok (ε := PyErr) docs
          (rank query docs).map (List.take k)) = (rank query docs).map (List.take k) from rfl,
        hrank] at h
      simp [Except.map] at h
      subst h
      simp [List.length_take]

/-- Loading a namespace only looks at its own artifact path. -/
theorem load_vector_store_congr (fs fs' : FS) (ns : String)
    (h : fs' (get_namespace_path ns) = fs (get_namespace_path ns)) :
    load_vector_store fs' ns = load_vector_store fs ns := by
  unfold load_vector_store
  rw [h]

/-- Fan-out search only looks at the artifact paths of the requested
namespaces. -/
theorem search_congr (rank : RankFn) (fs fs' : FS) (query : String) (k : Nat)
    (nss : List String)
    (h : ∀ ns ∈ nss, fs' (get_namespace_path ns) = fs (get_namespace_path ns)) :
    search rank fs' query nss k = search rank fs query nss k := by
  unfold search
  rw [searchLoop_eq, searchLoop_eq]
  have : nss.flatMap (fun ns => namespace_search_result rank fs' query k ns)
      = nss.flatMap (fun ns => namespace_search_result rank fs query k ns) := by
    apply List.flatMap_congr
    intro ns hns
    unfold namespace_search_result searchNamespaceStep
    rw [load_vector_store_congr fs fs' ns (h ns hns)]
  rw [this]

/-- Appending a nonempty suffix changes a string. -/
theorem string_append_pkl_ne (s : String) : s ++ ".pkl" ≠ s := by
  intro h
  have h' := congrArg (fun t => t.data.length) h
  simp [String.data_append] at h'

/-- The namespace-to-path map is injective on namespace strings. -/
theorem get_namespace_path_inj {a b : String}
    (h : get_namespace_path a = get_namespace_path b) : a = b := by
  have h' := congrArg String.data h
  simp [get_namespace_path, VECTOR_STORE_PATH, String.data_append] at h'
  exact String.ext h'

/-- The `.pkl` sibling path of one namespace is never the index path of
any namespace (the former ends in `l`, the latter in `s`). -/
theorem pkl_path_ne_namespace_path (a b : String) :
    get_namespace_path a ++ ".pkl" ≠ get_namespace_path b := by
  intro h
  have h' := congrArg (fun t => t.data.reverse) h
  simp [get_namespace_path, VECTOR_STORE_PATH, String.data_append,
    List.reverse_append] at h'

/-- Updating one path does not change any other path. -/
theorem FS.update_ne (fs : FS) (q p : String) (v : Option FSNode) (h : p ≠ q) :
    FS.update fs q v p = fs p := by
  unfold FS.update
  simp [h]

/-- A successful `os.remove` removed exactly the given path. -/
theorem os_remove_ok (fs : FS) (q : String) (fs' : FS)
    (h : os_remove fs q = .ok fs') : fs' = FS.update fs q none := by
  unfold os_remove at h
  cases hq : fs q <;> rw [hq] at h
  · exact absurd h (by simp)
  · next node =>
    cases node with
    | file data => exact (Except.ok.inj h).symm
    | pdf pages => exact (Except.ok.inj h).symm
    | faissDir docs corrupt => exact absurd h (by simp)

/-- The file system after `delete_vector_store` is the original one,
or the original minus the artifact path, or minus the artifact path
and its `.pkl` sibling. -/
theorem delete_vector_store_fs_cases (fs : FS) (ns : String) :
    (delete_vector_store fs ns).2 = fs
    ∨ (delete_vector_store fs ns).2 = FS.update fs (get_namespace_path ns) none
    ∨ (delete_vector_store fs ns).2
        = FS.update (FS.update fs (get_namespace_path ns) none)
            (get_namespace_path ns ++ ".pkl") none := by
  unfold delete_vector_store
  dsimp only
  split
  · split
    · exact Or.inl rfl
    · next fs1 heq =>
      have h1 := os_remove_ok _ _ _ heq
      split
      · split
        · exact Or.inr (Or.inl h1)
        · next fs2 heq2 =>
          have h2 := os_remove_ok _ _ _ heq2
          exact Or.inr (Or.inr (h2.trans (by rw [h1])))
      · exact Or.inr (Or.inl h1)
  · exact Or.inl rfl

/-- Deletion of a namespace leaves every path other than the
namespace's artifact path and its `.pkl` sibling untouched. -/
theorem delete_preserves_other_paths (fs : FS) (ns : String) (p : String)
    (h1 : p ≠ get_namespace_path ns) (h2 : p ≠ get_namespace_path ns ++ ".pkl") :
    (delete_vector_store fs ns).2 p = fs p := by
  rcases delete_vector_store_fs_cases fs ns with h | h | h <;> rw [h]
  · rw [FS.update_ne _ _ _ _ h1]
  · rw [FS.update_ne _ _ _ _ h2, FS.update_ne _ _ _ _ h1]

/-! ## Claim theorems -/

/-- C1: the claim that the first `delete` of an existing namespace
returns `true` and removes the artifacts fails on the code.  After a
`create_vector_store` (whose `FAISS.save_local` writes a *directory* at
the namespace path) the artifact exists, yet `delete_vector_store`
calls `os.remove` on that directory, which raises `IsADirectoryError`;
the exception is caught and the call returns `False` with every
artifact still in place, so the namespace still exists afterwards. -/
theorem delete_after_create_returns_false_and_removes_nothing :
    create_vector_store fs0 [doc0] "doc-1" = .ok fs1
    ∧ namespace_exists fs1 "doc-1" = true
    ∧ delete_vector_store fs1 "doc-1" = (false, fs1)
    ∧ namespace_exists (delete_vector_store fs1 "doc-1").2 "doc-1" = true
    ∧ delete_vector_store (delete_vector_store fs1 "doc-1").2 "doc-1" = (false, fs1) :=
  ⟨rfl, rfl, rfl, rfl, rfl⟩

/-- C2: fan-out search is the concatenation, in request order, of the
independent per-namespace contributions; a namespace whose step raised
(a missing artifact raising `FileNotFoundError` in particular)
contributes nothing, and each contribution has at most `k` documents.
`search` is total — no exception reaches the caller. -/
theorem search_fanout_resilient (rank : RankFn) (fs : FS) (query : String)
    (namespaces : List String) (k : Nat) :
    search rank fs query namespaces k
      = namespaces.flatMap (fun ns => namespace_search_result rank fs query k ns)
    ∧ (∀ ns, (namespace_search_result rank fs query k ns).length ≤ k)
    ∧ (∀ ns, fs (get_namespace_path ns) = none →
        namespace_search_result rank fs query k ns = [])
    ∧ (∀ ns e, searchNamespaceStep rank fs query k ns = .error e →
        namespace_search_result rank fs query k ns = []) := by
  refine ⟨?_, ?_, ?_, ?_⟩
  · unfold search
    rw [searchLoop_eq]
    simp
  · intro ns
    unfold namespace_search_result
    cases h : searchNamespaceStep rank fs query k ns with
    | ok results => exact searchNamespaceStep_length_le rank fs query k ns results h
    | error e => simp
  · intro ns hmiss
    unfold namespace_search_result searchNamespaceStep load_vector_store
    rw [hmiss]
    rfl
  · intro ns e h
    unfold namespace_search_result
    rw [h]

/-- Witness for C2 at concrete inputs: searching a missing namespace
next to a populated one returns exactly the populated namespace's
results, the missing namespace raising `FileNotFoundError` internally
and contributing nothing. -/
theorem search_fanout_resilient_witness :
    search rank0 fs1 "revenue" ["missing", "doc-1"] 5
      = ["missing", "doc-1"].flatMap
          (fun ns => namespace_search_result rank0 fs1 "revenue" 5 ns)
    ∧ search rank0 fs1 "revenue" ["missing", "doc-1"] 5 = [doc0]
    ∧ (namespace_search_result rank0 fs1 "revenue" 5 "doc-1").length ≤ 5
    ∧ (fs1 (get_namespace_path "missing") = none
       ∧ namespace_search_result rank0 fs1 "revenue" 5 "missing" = [])
    ∧ (searchNamespaceStep rank0 fs1 "revenue" 5 "missing"
         = .error (.fileNotFound ("Vector store not found: " ++ "missing"))
       ∧ namespace_search_result rank0 fs1 "revenue" 5 "missing" = []) :=
  ⟨(search_fanout_resilient rank0 fs1 "revenue" ["missing", "doc-1"] 5).1,
   rfl,
   (search_fanout_resilient rank0 fs1 "revenue" ["missing", "doc-1"] 5).2.1 "doc-1",
   ⟨rfl, (search_fanout_resilient rank0 fs1 "revenue" ["missing", "doc-1"] 5).2.2.1
      "missing" rfl⟩,
   ⟨rfl, (search_fanout_resilient rank0 fs1 "revenue" ["missing", "doc-1"] 5).2.2.2
      "missing" (.fileNotFound ("Vector store not found: " ++ "missing")) rfl⟩⟩

/-- C8: searching with an empty namespace list returns the empty
sequence at once — the namespace loop attempts no index load — and
`_retrieve_context` likewise short-circuits without invoking
`vector_store.search`. -/
theorem search_empty_namespace_list (rank : RankFn) (fs : FS) (query : String)
    (k : Nat) (env : RAGEnv) (question : String) :
    search rank fs query [] k = []
    ∧ searchLoop rank fs query k [] [] [] = ([], [])
    ∧ retrieve_context env question [] = ([], []) :=
  ⟨rfl, rfl, rfl⟩

/-- C9: creating or deleting namespace `a` leaves the on-disk artifact
of any other namespace `b` unchanged, and leaves search results over
`b` unchanged — artifact paths are derived from the namespace string
alone, and distinct namespaces have distinct (and distinct `.pkl`)
paths. -/
theorem namespace_isolation (fs : FS) (documents : List Document) (a b : String)
    (hne : a ≠ b) :
    (∀ fs', create_vector_store fs documents a = .ok fs' →
       fs' (get_namespace_path b) = fs (get_namespace_path b)
       ∧ ∀ rank query k, search rank fs' query [b] k = search rank fs query [b] k)
    ∧ ((delete_vector_store fs a).2 (get_namespace_path b)
         = fs (get_namespace_path b)
       ∧ ∀ rank query k,
           search rank (delete_vector_store fs a).2 query [b] k
             = search rank fs query [b] k) := by
  have hpath : get_namespace_path b ≠ get_namespace_path a :=
    fun h => hne (get_namespace_path_inj h).symm
  have hpkl : get_namespace_path b ≠ get_namespace_path a ++ ".pkl" :=
    fun h => pkl_path_ne_namespace_path a b h.symm
  constructor
  · intro fs' hc
    unfold create_vector_store at hc
    by_cases hd : documents.isEmpty
    · rw [if_pos hd] at hc; exact absurd hc (by simp)
    · rw [if_neg hd] at hc
      have hfs' := (Except.ok.inj hc).symm
      subst hfs'
      have hpoint : FS.update fs (get_namespace_path a)
          (some (.faissDir documents false)) (get_namespace_path b)
          = fs (get_namespace_path b) := FS.update_ne _ _ _ _ hpath
      exact ⟨hpoint, fun rank query k => search_congr rank fs _ query k [b]
        (by intro ns hns; rw [List.mem_singleton] at hns; subst hns; exact hpoint)⟩
  · have hpoint := delete_preserves_other_paths fs a (get_namespace_path b) hpath hpkl
    exact ⟨hpoint, fun rank query k => search_congr rank fs _ query k [b]
      (by intro ns hns; rw [List.mem_singleton] at hns; subst hns; exact hpoint)⟩

/-- Witness for C9 at concrete inputs: deleting or re-creating
namespace `doc-2` leaves the artifact and the search results of
`doc-1` unchanged. -/
theorem namespace_isolation_witness :
    ("doc-2" : String) ≠ "doc-1"
    ∧ (delete_vector_store fs1 "doc-2").2 (get_namespace_path "doc-1")
        = fs1 (get_namespace_path "doc-1")
    ∧ search rank0 (delete_vector_store fs1 "doc-2").2 "revenue" ["doc-1"] 5
        = search rank0 fs1 "revenue" ["doc-1"] 5
    ∧ create_vector_store fs1 [doc0] "doc-2"
        = .ok (FS.update fs1 (get_namespace_path "doc-2") (some (.faissDir [doc0] false)))
    ∧ (FS.update fs1 (get_namespace_path "doc-2") (some (.faissDir [doc0] false)))
        (get_namespace_path "doc-1") = fs1 (get_namespace_path "doc-1")
    ∧ search rank0
        (FS.update fs1 (get_namespace_path "doc-2") (some (.faissDir [doc0] false)))
        "revenue" ["doc-1"] 5
        = search rank0 fs1 "revenue" ["doc-1"] 5 := by
  have hne : ("doc-2" : String) ≠ "doc-1" := by decide
  have hdel := (namespace_isolation fs1 [doc0] "doc-2" "doc-1" hne).2
  have hcreate := (namespace_isolation fs1 [doc0] "doc-2" "doc-1" hne).1
    (FS.update fs1 (get_namespace_path "doc-2") (some (.faissDir [doc0] false))) rfl
  exact ⟨hne, hdel.1, hdel.2 rank0 "revenue" 5, rfl, hcreate.1,
    hcreate.2 rank0 "revenue" 5⟩

/-- C3: each namespace-requiring mode returns its fixed guidance
message on an empty namespace list — with no search invocation and no
language-model call — and its fixed not-found message when retrieval
yields zero chunks — again with no language-model call.  The model is
therefore never invoked with empty context in these modes. -/
theorem modes_short_circuit_on_empty_context (env : RAGEnv) (question : String)
    (chat_history : List ChatMessage) (namespaces : List String) :
    (namespaces = [] →
      smart_chat env question chat_history namespaces
        = (.ok "I need documents to answer your question. Please upload a document first.",
           ⟨[], []⟩)
      ∧ document_analysis env question chat_history namespaces
        = (.ok "Please upload a document to analyze.", ⟨[], []⟩)
      ∧ analytical_insights env question chat_history namespaces
        = (.ok "Please upload financial documents to analyze.", ⟨[], []⟩))
    ∧ (namespaces ≠ [] →
       search env.rank env.fs question namespaces TOP_K_RESULTS = [] →
      smart_chat env question chat_history namespaces
        = (.ok "I couldn't find relevant information in the uploaded documents to answer your question.",
           ⟨[namespaces], []⟩)
      ∧ document_analysis env question chat_history namespaces
        = (.ok "No relevant information found in the document.", ⟨[namespaces], []⟩)
      ∧ analytical_insights env question chat_history namespaces
        = (.ok "No relevant financial data found in the documents.", ⟨[namespaces], []⟩)) := by
  constructor
  · intro h
    subst h
    exact ⟨rfl, rfl, rfl⟩
  · intro hne hsearch
    have hne' : namespaces.isEmpty = false := by
      cases namespaces with
      | nil => exact absurd rfl hne
      | cons x xs => rfl
    refine ⟨?_, ?_, ?_⟩ <;>
      simp [smart_chat, document_analysis, analytical_insights, retrieve_context,
        hne', hsearch]

/-- Witness for C3 at concrete inputs: the empty namespace list and a
namespace list whose retrieval finds nothing. -/
theorem modes_short_circuit_witness :
    (smart_chat cenv0 "q" [] []
       = (.ok "I need documents to answer your question. Please upload a document first.",
          ⟨[], []⟩)
     ∧ document_analysis cenv0 "q" [] []
       = (.ok "Please upload a document to analyze.", ⟨[], []⟩)
     ∧ analytical_insights cenv0 "q" [] []
       = (.ok "Please upload financial documents to analyze.", ⟨[], []⟩))
    ∧ ((["missing"] : List String) ≠ []
       ∧ search cenv0.rank cenv0.fs "q" ["missing"] TOP_K_RESULTS = [])
    ∧ (smart_chat cenv0 "q" [] ["missing"]
       = (.ok "I couldn't find relevant information in the uploaded documents to answer your question.",
          ⟨[["missing"]], []⟩)
     ∧ document_analysis cenv0 "q" [] ["missing"]
       = (.ok "No relevant information found in the document.", ⟨[["missing"]], []⟩)
     ∧ analytical_insights cenv0 "q" [] ["missing"]
       = (.ok "No relevant financial data found in the documents.", ⟨[["missing"]], []⟩)) :=
  ⟨(modes_short_circuit_on_empty_context cenv0 "q" [] []).1 rfl,
   ⟨by decide, rfl⟩,
   (modes_short_circuit_on_empty_context cenv0 "q" [] ["missing"]).2 (by decide) rfl⟩

/-- C4: `get_answer` with an unrecognized mode string produces exactly
the same result (answer and instrumentation trace) as with mode
`Smart_Chat`. -/
theorem unknown_mode_same_as_smart_chat (env : RAGEnv) (question : String)
    (chat_history : List ChatMessage) (namespaces : List String) (feature_mode : String)
    (h1 : feature_mode ≠ "Smart_Chat") (h2 : feature_mode ≠ "Document_Analysis")
    (h3 : feature_mode ≠ "Analytical_Insights")
    (h4 : feature_mode ≠ "General_Conversation") :
    get_answer env question chat_history namespaces feature_mode
      = get_answer env question chat_history namespaces "Smart_Chat" := by
  unfold get_answer route_mode
  simp [h1, h2, h3, h4]

/-- Witness for C4 at a concrete unrecognized mode, over a store where
the Smart Chat path reaches the model. -/
theorem unknown_mode_same_as_smart_chat_witness :
    (("bogus" : String) ≠ "Smart_Chat" ∧ ("bogus" : String) ≠ "Document_Analysis"
      ∧ ("bogus" : String) ≠ "Analytical_Insights"
      ∧ ("bogus" : String) ≠ "General_Conversation")
    ∧ get_answer cenv1 "revenue" [] ["doc-1"] "bogus"
        = get_answer cenv1 "revenue" [] ["doc-1"] "Smart_Chat" :=
  ⟨⟨by decide, by decide, by decide, by decide⟩,
   unknown_mode_same_as_smart_chat cenv1 "revenue" [] ["doc-1"] "bogus"
     (by decide) (by decide) (by decide) (by decide)⟩

/-- C5: any error raised during mode execution is caught at the entry
point of `get_answer`, which returns the fixed apology string instead;
`get_answer` itself is a total function into plain answer strings, so
no exception ever propagates to its caller. -/
theorem get_answer_catches_all_errors (env : RAGEnv) (question : String)
    (chat_history : List ChatMessage) (namespaces : List String)
    (feature_mode : String) (e : PyErr) (tr : Trace)
    (h : route_mode env question chat_history namespaces feature_mode
      = (.error e, tr)) :
    get_answer env question chat_history namespaces feature_mode
      = ("I encountered an error while processing your question. Please try again or rephrase your question.",
         tr) := by
  unfold get_answer
  rw [h]

/-- Witness for C5: an environment whose language model fails makes
Smart Chat raise internally, and `get_answer` returns the apology. -/
theorem get_answer_catches_all_errors_witness :
    route_mode cenvFail "revenue" [] ["doc-1"] "Smart_Chat"
      = (.error (.exn "model call failed"),
         (route_mode cenvFail "revenue" [] ["doc-1"] "Smart_Chat").2)
    ∧ get_answer cenvFail "revenue" [] ["doc-1"] "Smart_Chat"
      = ("I encountered an error while processing your question. Please try again or rephrase your question.",
         (route_mode cenvFail "revenue" [] ["doc-1"] "Smart_Chat").2) :=
  ⟨rfl,
   get_answer_catches_all_errors cenvFail "revenue" [] ["doc-1"] "Smart_Chat"
     (.exn "model call failed")
     (route_mode cenvFail "revenue" [] ["doc-1"] "Smart_Chat").2 rfl⟩

/-! ## Document processor lemmas -/

/-- Closed form of the image loop: a failing image contributes nothing,
a successful one contributes its chunks, in enumeration order. -/
theorem extract_images_loop_eq (split : SplitFn) (vision : VisionFn) (page_num : Nat) :
    ∀ (l : List (Nat × PDFImage)) (acc : List Document),
      extract_images_loop split vision page_num l acc
        = acc ++ l.flatMap (fun p =>
            if p.2.extractOk then image_chunks_for split vision page_num p.1 p.2.data
            else []) := by
  intro l
  induction l with
  | nil => intro acc; simp [extract_images_loop]
  | cons p rest ih =>
    intro acc
    obtain ⟨img_index, img⟩ := p
    unfold extract_images_loop doc_extract_image
    cases hok : img.extractOk with
    | true => simp [hok, ih]
    | false => simp [hok, ih]

/-- Closed form of `_extract_images_from_page`. -/
theorem extract_images_from_page_eq (split : SplitFn) (vision : VisionFn)
    (page : PDFPage) (page_num : Nat) :
    extract_images_from_page split vision page page_num
      = (enumFrom 0 page.images).flatMap (fun p =>
          if p.2.extractOk then image_chunks_for split vision page_num p.1 p.2.data
          else []) := by
  unfold extract_images_from_page
  cases h : page.images with
  | nil => simp [h, enumFrom]
  | cons i rest =>
    rw [if_neg (by simp [h]), extract_images_loop_eq]
    simp [h]

/-- Closed form of the page loop of `process_pdf`. -/
theorem process_pages_eq (split : SplitFn) (vision : VisionFn) :
    ∀ (l : List (Nat × PDFPage)) (acc : List Document),
      process_pages split vision l acc
        = acc ++ l.flatMap (fun p =>
            extract_text_from_page split p.2 p.1
              ++ extract_images_from_page split vision p.2 p.1) := by
  intro l
  induction l with
  | nil => intro acc; simp [process_pages]
  | cons p rest ih =>
    intro acc
    obtain ⟨page_num, page⟩ := p
    unfold process_pages
    simp [ih]

/-- Every text chunk of a page carries that page's metadata. -/
theorem metadata_of_mem_text_chunks {d : Document} {split : SplitFn} {pg : PDFPage}
    {n : Nat} (h : d ∈ extract_text_from_page split pg n) :
    d.metadata = ⟨n, "text", "pdf_text", none⟩ := by
  unfold extract_text_from_page at h
  split at h
  · exact absurd h (List.not_mem_nil d)
  · obtain ⟨c, hc, hd⟩ := List.mem_map.mp h
    subst hd
    rfl

/-- Every chunk of one image carries that image's metadata. -/
theorem metadata_of_mem_image_chunks_for {d : Document} {split : SplitFn}
    {vision : VisionFn} {n i : Nat} {bytes : String}
    (h : d ∈ image_chunks_for split vision n i bytes) :
    d.metadata = ⟨n, "image", "pdf_image", some i⟩ := by
  unfold image_chunks_for at h
  obtain ⟨c, hc, hd⟩ := List.mem_map.mp h
  subst hd
  rfl

/-- Any chunk of the image fan-out from index `s` on is an image chunk
of the page with image index at least `s`. -/
theorem mem_image_flatMap {split : SplitFn} {vision : VisionFn} {n : Nat} :
    ∀ (imgs : List PDFImage) (s : Nat) (d : Document),
      d ∈ (enumFrom s imgs).flatMap (fun p =>
        if p.2.extractOk then image_chunks_for split vision n p.1 p.2.data else []) →
      ∃ i, s ≤ i ∧ d.metadata = ⟨n, "image", "pdf_image", some i⟩ := by
  intro imgs
  induction imgs with
  | nil => intro s d h; simp [enumFrom] at h
  | cons img rest ih =>
    intro s d h
    simp only [enumFrom, List.flatMap_cons, List.mem_append] at h
    rcases h with h | h
    · split at h
      · exact ⟨s, Nat.le_refl s, metadata_of_mem_image_chunks_for h⟩
      · exact absurd h (List.not_mem_nil d)
    · obtain ⟨i, hsi, hmeta⟩ := ih (s + 1) d h
      exact ⟨i, Nat.le_of_succ_le hsi, hmeta⟩

/-- The image chunks of one page are pairwise ordered: same page,
non-decreasing image index. -/
theorem image_flatMap_pairwise (split : SplitFn) (vision : VisionFn) (n : Nat) :
    ∀ (imgs : List PDFImage) (s : Nat),
      List.Pairwise chunkOrder ((enumFrom s imgs).flatMap (fun p =>
        if p.2.extractOk then image_chunks_for split vision n p.1 p.2.data else [])) := by
  intro imgs
  induction imgs with
  | nil => intro s; simp [enumFrom]
  | cons img rest ih =>
    intro s
    simp only [enumFrom, List.flatMap_cons]
    rw [List.pairwise_append]
    refine ⟨?_, ih (s + 1), ?_⟩
    · split
      · apply List.pairwise_of_forall_mem_list
        intro a ha b hb
        have ha' := metadata_of_mem_image_chunks_for ha
        have hb' := metadata_of_mem_image_chunks_for hb
        right
        refine ⟨by rw [ha', hb'], fun _ => ⟨by rw [hb'], ?_⟩⟩
        unfold chunkImgIdx
        rw [ha', hb']
      · exact List.Pairwise.nil
    · intro a ha b hb
      have hb' := mem_image_flatMap rest (s + 1) b hb
      obtain ⟨i, hsi, hbmeta⟩ := hb'
      have ha' : a.metadata = ⟨n, "image", "pdf_image", some s⟩ := by
        split at ha
        · exact metadata_of_mem_image_chunks_for ha
        · exact absurd ha (List.not_mem_nil a)
      right
      rw [ha', hbmeta]
      refine ⟨rfl, fun _ => ⟨rfl, ?_⟩⟩
      unfold chunkImgIdx
      rw [ha', hbmeta]
      exact Nat.le_of_succ_le hsi

/-- The text chunks of one page are pairwise ordered (they all carry
the same page and the text type). -/
theorem text_block_pairwise (split : SplitFn) (pg : PDFPage) (n : Nat) :
    List.Pairwise chunkOrder (extract_text_from_page split pg n) := by
  apply List.pairwise_of_forall_mem_list
  intro a ha b hb
  have ha' := metadata_of_mem_text_chunks ha
  have hb' := metadata_of_mem_text_chunks hb
  right
  refine ⟨by rw [ha', hb'], fun himg => ?_⟩
  have h' : ("text" : String) = "image" := by rw [ha'] at himg; exact himg
  exact absurd h' (by decide)

/-- Every image chunk of a page has that page number and image type. -/
theorem metadata_of_mem_image_block {d : Document} {split : SplitFn}
    {vision : VisionFn} {pg : PDFPage} {n : Nat}
    (h : d ∈ extract_images_from_page split vision pg n) :
    d.metadata.page = n ∧ d.metadata.type = "image" := by
  rw [extract_images_from_page_eq] at h
  obtain ⟨i, hsi, hmeta⟩ := mem_image_flatMap pg.images 0 d h
  rw [hmeta]
  exact ⟨rfl, rfl⟩

/-- All chunks of one page carry that page number. -/
theorem page_of_mem_page_block {d : Document} {split : SplitFn} {vision : VisionFn}
    {pg : PDFPage} {n : Nat}
    (h : d ∈ extract_text_from_page split pg n
          ++ extract_images_from_page split vision pg n) :
    d.metadata.page = n := by
  rcases List.mem_append.mp h with h | h
  · rw [metadata_of_mem_text_chunks h]
  · exact (metadata_of_mem_image_block h).1

/-- One page's chunk block (text then images) is pairwise ordered. -/
theorem page_block_pairwise (split : SplitFn) (vision : VisionFn) (pg : PDFPage)
    (n : Nat) :
    List.Pairwise chunkOrder
      (extract_text_from_page split pg n ++ extract_images_from_page split vision pg n) := by
  rw [List.pairwise_append]
  refine ⟨text_block_pairwise split pg n, ?_, ?_⟩
  · rw [extract_images_from_page_eq]
    exact image_flatMap_pairwise split vision n pg.images 0
  · intro a ha b hb
    have ha' := metadata_of_mem_text_chunks ha
    have hb' := (metadata_of_mem_image_block hb).1
    right
    refine ⟨by rw [ha', hb'], fun himg => ?_⟩
    have h' : ("text" : String) = "image" := by rw [ha'] at himg; exact himg
    exact absurd h' (by decide)

/-- Every chunk of the page fan-out from page `s` on has page number at
least `s`. -/
theorem page_lb_of_mem_pages_flatMap {split : SplitFn} {vision : VisionFn} :
    ∀ (pages : List PDFPage) (s : Nat) (d : Document),
      d ∈ (enumFrom s pages).flatMap (fun p =>
        extract_text_from_page split p.2 p.1
          ++ extract_images_from_page split vision p.2 p.1) →
      s ≤ d.metadata.page := by
  intro pages
  induction pages with
  | nil => intro s d h; simp [enumFrom] at h
  | cons pg rest ih =>
    intro s d h
    simp only [enumFrom, List.flatMap_cons, List.mem_append] at h
    rcases h with h | h
    · rw [page_of_mem_page_block (List.mem_append.mpr h)]
    · exact Nat.le_of_succ_le (ih (s + 1) d h)

/-- The whole fan-out over the pages is pairwise ordered. -/
theorem pages_flatMap_pairwise (split : SplitFn) (vision : VisionFn) :
    ∀ (pages : List PDFPage) (s : Nat),
      List.Pairwise chunkOrder ((enumFrom s pages).flatMap (fun p =>
        extract_text_from_page split p.2 p.1
          ++ extract_images_from_page split vision p.2 p.1)) := by
  intro pages
  induction pages with
  | nil => intro s; simp [enumFrom]
  | cons pg rest ih =>
    intro s
    simp only [enumFrom, List.flatMap_cons]
    rw [List.pairwise_append]
    refine ⟨page_block_pairwise split vision pg s, ih (s + 1), ?_⟩
    intro a ha b hb
    left
    rw [page_of_mem_page_block ha]
    exact page_lb_of_mem_pages_flatMap rest (s + 1) b hb

/-- C6: `process_pdf` fails with `FileNotFoundError` exactly when the
source file is missing, with an open error exactly when the file is not
a valid document, with the empty-content `ValueError` exactly when the
per-page processing produced zero chunks, and otherwise returns the
non-empty chunk list; the file system is never written, so no partial
state is persisted on failure. -/
theorem process_pdf_error_conditions (split : SplitFn) (vision : VisionFn)
    (fs : FS) (file_path : String) :
    (process_pdf split vision fs file_path).2 = fs
    ∧ (fs file_path = none →
        (process_pdf split vision fs file_path).1
          = .error (.fileNotFound ("File not found: " ++ file_path)))
    ∧ (∀ data, fs file_path = some (.file data) →
        (process_pdf split vision fs file_path).1
          = .error (.exn ("cannot open document: " ++ file_path)))
    ∧ (∀ docs corrupt, fs file_path = some (.faissDir docs corrupt) →
        (process_pdf split vision fs file_path).1
          = .error (.exn ("cannot open document: " ++ file_path)))
    ∧ (∀ pages, fs file_path = some (.pdf pages) →
        (process_pages split vision (enumFrom 1 pages) [] = [] →
          (process_pdf split vision fs file_path).1
            = .error (.valueError "No content extracted from PDF"))
        ∧ (process_pages split vision (enumFrom 1 pages) [] ≠ [] →
          (process_pdf split vision fs file_path).1
            = .ok (process_pages split vision (enumFrom 1 pages) []))) := by
  refine ⟨?_, ?_, ?_, ?_, ?_⟩
  · unfold process_pdf
    dsimp only
    split
    · split
      · rfl
      · split
        · rfl
        · rfl
    · rfl
  · intro h
    simp [process_pdf, os_path_exists, h]
  · intro data h
    simp [process_pdf, os_path_exists, fitz_open, h]
  · intro docs corrupt h
    simp [process_pdf, os_path_exists, fitz_open, h]
  · intro pages h
    constructor
    · intro hempty
      simp [process_pdf, os_path_exists, fitz_open, h, hempty]
    · intro hne
      have hne' : (process_pages split vision (enumFrom 1 pages) []).isEmpty = false := by
        cases hc : process_pages split vision (enumFrom 1 pages) [] with
        | nil => exact absurd hc hne
        | cons x xs => rfl
      simp [process_pdf, os_path_exists, fitz_open, h, hne']

/-- Witness for C6 at concrete inputs: a missing path, a non-PDF file,
and a one-page PDF that yields a non-empty chunk list. -/
theorem process_pdf_error_conditions_witness :
    (fs0 "missing.pdf" = none
     ∧ (process_pdf split0 vision0 fs0 "missing.pdf").1
         = .error (.fileNotFound ("File not found: " ++ "missing.pdf")))
    ∧ (fs1 (get_namespace_path "doc-1") = some (.faissDir [doc0] false)
     ∧ (process_pdf split0 vision0 fs1 (get_namespace_path "doc-1")).1
         = .error (.exn ("cannot open document: " ++ get_namespace_path "doc-1")))
    ∧ (fsP "report.pdf" = some (.pdf [page1])
     ∧ process_pages split0 vision0 (enumFrom 1 [page1]) [] ≠ []
     ∧ (process_pdf split0 vision0 fsP "report.pdf").1
         = .ok (process_pages split0 vision0 (enumFrom 1 [page1]) []))
    ∧ (process_pdf split0 vision0 fsP "report.pdf").2 = fsP :=
  ⟨⟨rfl, (process_pdf_error_conditions split0 vision0 fs0 "missing.pdf").2.1 rfl⟩,
   ⟨rfl, (process_pdf_error_conditions split0 vision0 fs1
      (get_namespace_path "doc-1")).2.2.2.1 [doc0] false rfl⟩,
   ⟨rfl, by decide,
    ((process_pdf_error_conditions split0 vision0 fsP "report.pdf").2.2.2.2
      [page1] rfl).2 (by decide)⟩,
   (process_pdf_error_conditions split0 vision0 fsP "report.pdf").1⟩

/-- C7: a failing or malformed vision call degrades to a fixed
placeholder instead of raising, and a per-image extraction failure is
caught and skipped, every other image of the page still contributing
its chunks — so image failures never abort page or document
extraction. -/
theorem image_description_failures_never_abort (split : SplitFn) (vision : VisionFn)
    (image_bytes : String) (page_num : Nat) :
    (∀ e, vision image_bytes = .error e →
       get_image_description vision image_bytes
         = "Image description unavailable due to processing error.")
    ∧ (vision image_bytes = .ok "" →
       get_image_description vision image_bytes = "Could not describe image.")
    ∧ (∀ s, vision image_bytes = .ok s → s ≠ "" →
       get_image_description vision image_bytes = s)
    ∧ (∀ page : PDFPage,
       extract_images_from_page split vision page page_num
         = (enumFrom 0 page.images).flatMap (fun p =>
             if p.2.extractOk then
               image_chunks_for split vision page_num p.1 p.2.data
             else [])) := by
  refine ⟨?_, ?_, ?_, ?_⟩
  · intro e h
    unfold get_image_description
    rw [h]
  · intro h
    unfold get_image_description
    rw [h]
    rfl
  · intro s h hs
    unfold get_image_description
    rw [h]
    simp [hs]
  · intro page
    exact extract_images_from_page_eq split vision page page_num

/-- Witness for C7 at concrete inputs: a failing vision model, an
empty vision response, a successful one, and a page whose middle image
cannot be decoded yet whose other images still produce chunks. -/
theorem image_description_failures_witness :
    (visionFail "img-bytes" = .error (.exn "vision model unavailable")
     ∧ get_image_description visionFail "img-bytes"
         = "Image description unavailable due to processing error.")
    ∧ (visionEmpty "img-bytes" = .ok ""
     ∧ get_image_description visionEmpty "img-bytes" = "Could not describe image.")
    ∧ (vision0 "img-bytes" = .ok "Description of img-bytes"
     ∧ ("Description of img-bytes" : String) ≠ ""
     ∧ get_image_description vision0 "img-bytes" = "Description of img-bytes")
    ∧ extract_images_from_page split0 vision0 pageImgs 1
        = (enumFrom 0 pageImgs.images).flatMap (fun p =>
            if p.2.extractOk then image_chunks_for split0 vision0 1 p.1 p.2.data
            else [])
    ∧ extract_images_from_page split0 vision0 pageImgs 1
        = [⟨"[Image from page 1]: Description of chart-bytes",
            ⟨1, "image", "pdf_image", some 0⟩⟩,
           ⟨"[Image from page 1]: Description of table-bytes",
            ⟨1, "image", "pdf_image", some 2⟩⟩] :=
  ⟨⟨rfl, (image_description_failures_never_abort split0 visionFail "img-bytes" 1).1
      (.exn "vision model unavailable") rfl⟩,
   ⟨rfl, (image_description_failures_never_abort split0 visionEmpty "img-bytes" 1).2.1
      rfl⟩,
   ⟨rfl, by decide,
    (image_description_failures_never_abort split0 vision0 "img-bytes" 1).2.2.1
      "Description of img-bytes" rfl (by decide)⟩,
   (image_description_failures_never_abort split0 vision0 "fake" 1).2.2.2 pageImgs,
   rfl⟩

/-- C10: every chunk list successfully returned by `process_pdf` is
ordered by non-decreasing page number; on one page all text chunks
precede all image chunks, and image chunks appear in non-decreasing
image-index order. -/
theorem process_pdf_chunk_ordering (split : SplitFn) (vision : VisionFn) (fs : FS)
    (file_path : String) (chunks : List Document)
    (h : (process_pdf split vision fs file_path).1 = .ok chunks) :
    List.Pairwise chunkOrder chunks := by
  unfold process_pdf at h
  by_cases hex : os_path_exists fs file_path
  · rw [if_pos hex] at h
    cases hopen : fitz_open fs file_path with
    | error e => rw [hopen] at h; exact absurd h (by simp)
    | ok pages =>
      rw [hopen] at h
      dsimp only at h
      by_cases hempty : (process_pages split vision (enumFrom 1 pages) []).isEmpty
      · rw [if_pos hempty] at h
        exact absurd h (by simp)
      · rw [if_neg hempty] at h
        have hc := Except.ok.inj h
        subst hc
        rw [process_pages_eq]
        simpa using pages_flatMap_pairwise split vision pages 1
  · rw [if_neg hex] at h
    exact absurd h (by simp)

/-- Witness for C10: a two-page PDF whose first page has text and two
surviving images (with a gap in the image index left by a skipped
undecodable image) produces a chunk list satisfying the ordering
invariant. -/
theorem process_pdf_chunk_ordering_witness :
    (process_pdf split0 vision0 fsP2 "fin.pdf").1
      = .ok [⟨"Revenue summary.", ⟨1, "text", "pdf_text", none⟩⟩,
             ⟨"[Image from page 1]: Description of chart-bytes",
              ⟨1, "image", "pdf_image", some 0⟩⟩,
             ⟨"[Image from page 1]: Description of table-bytes",
              ⟨1, "image", "pdf_image", some 2⟩⟩,
             ⟨"Outlook improves.", ⟨2, "text", "pdf_text", none⟩⟩]
    ∧ List.Pairwise chunkOrder
        [⟨"Revenue summary.", ⟨1, "text", "pdf_text", none⟩⟩,
         ⟨"[Image from page 1]: Description of chart-bytes",
          ⟨1, "image", "pdf_image", some 0⟩⟩,
         ⟨"[Image from page 1]: Description of table-bytes",
          ⟨1, "image", "pdf_image", some 2⟩⟩,
         ⟨"Outlook improves.", ⟨2, "text", "pdf_text", none⟩⟩] :=
  ⟨rfl, process_pdf_chunk_ordering split0 vision0 fsP2 "fin.pdf" _ rfl⟩

end FinChat
